import Mathlib

/-!
Verification development for the FunGen video-analysis pipeline orchestrator
(`script_generator/scripts/analyze_video.py`).

The orchestrator source (`analyze_video`, `log_progress`, `log_performance`)
is embedded shallowly below.  The stage-worker classes (`VideoWorker`,
`VrTo2DWorker`, `YoloWorker`, `PostProcessWorker`), the task classes and the
configuration constants (`SEQUENTIAL_MODE`, `QUEUE_MAXSIZE`) are not part of
the given source tree; where a definition depends on them it is modelled from
the specification's Stage Worker contract, and is marked as such in its doc
comment.  Runs are modelled by their observable outcome: the returned value
(or raised error), the chronological list of orchestration actions performed,
and the full sequence of items pushed into each queue over the run.
-/

namespace FunGen

/-- Errors (Python exceptions) are identified by their message. -/
abbrev Err := String

/-- Immutable facts about the source video, as probed by `state.set_video_info()`. -/
structure VideoInfo where
  total_frames : Nat
  fps : ℚ
  is_vr : Bool
  is_fisheye : Bool
deriving DecidableEq

/-- The progress message sent to the external UI sink
(`script_generator/gui/messages/messages.py` collaborator). -/
structure ProgressMessage where
  process : String
  frames_processed : Nat
  total_frames : Nat
  eta : String
deriving DecidableEq

/-- An item flowing through the pipeline queues: either one frame's task
(`AnalyzeFrameTask`, carrying its per-stage timing profile) or the `None`
end-of-stream sentinel. -/
inductive Item where
  | task (idx : Nat) (profile : List (String × ℚ)) : Item
  | sentinel : Item
deriving DecidableEq

/-- Python `hasattr(task, "profile")`: the frame-task object has a `profile`
attribute, the `None` sentinel does not. -/
def Item.hasattrProfile : Item → Bool
  | .task _ _ => true
  | .sentinel => false

/-- An item is a real frame task (a completed unit), not the sentinel. -/
def Item.isTask : Item → Bool
  | .task _ _ => true
  | .sentinel => false

/-- An item is the end-of-stream sentinel. -/
def Item.isSentinel : Item → Bool
  | .task _ _ => false
  | .sentinel => true

/-- The mutable application state object threaded through `analyze_video`. -/
structure AppState where
  video_path : String
  video_reader : String
  video_info : VideoInfo
  update_ui : Option (ProgressMessage → Except Err Unit)

/-- Observable orchestration actions, in chronological order. -/
inductive Action where
  | logWarn (msg : String)
  | logError (msg : String)
  | createWorker (name : String)
  | startThread (name : String)
  | joinThread (name : String)
  | joinThreadTimeout (name : String) (t : ℚ)
  | checkException (name : String)
  | setStopEvent
  | putSentinel (q : String)
deriving DecidableEq

/-- The reader string that selects the projection-conversion (OpenGL) path. -/
def openglReader : String := "FFmpeg + OpenGL (Windows)"

/- ## Progress-monitor arithmetic (from `log_progress`, lines 148-161) -/

/-- The ETA value computed by the monitor: a finite number of seconds or the
Python value `float("inf")`. -/
inductive EtaV where
  | finite (q : ℚ)
  | inf
deriving DecidableEq

/-- `processing_rate = frames_processed / elapsed_time if elapsed_time > 0 else 0`. -/
def processing_rate (frames_processed : Nat) (elapsed_time : ℚ) : ℚ :=
  if elapsed_time > 0 then (frames_processed : ℚ) / elapsed_time else 0

/-- `eta = remaining_frames / processing_rate if processing_rate > 0 else float("inf")`. -/
def eta_value (total_frames frames_processed : Nat) (rate : ℚ) : EtaV :=
  if rate > 0 then .finite (((total_frames : ℚ) - (frames_processed : ℚ)) / rate) else .inf

/-- Two-digit zero padding, as produced by `strftime`. -/
def pad2 (n : Nat) : String := if n < 10 then "0" ++ toString n else toString n

/-- Model of `time.strftime("%H:%M:%S", time.gmtime(eta))` for a finite
non-negative number of seconds (wrapping at 24 hours as `gmtime` does within
one day). -/
def hms (q : ℚ) : String :=
  let t : Nat := ⌊q⌋.toNat % 86400
  pad2 (t / 3600) ++ ":" ++ pad2 (t % 3600 / 60) ++ ":" ++ pad2 (t % 60)

/-- The eta string sent to the UI:
`time.strftime(...) if eta != float("inf") else "Calculating..."`. -/
def etaString : EtaV → String
  | .finite q => hms q
  | .inf => "Calculating..."

/-- Queue depths and results count read by one monitor polling iteration. -/
structure Snapshot where
  opengl_size : Nat
  yolo_size : Nat
  analysis_size : Nat
  frames_processed : Nat
deriving DecidableEq

/-- The progress message built by one monitor polling iteration
(lines 149-158): rate and ETA derived from the elapsed time. -/
def monitorMsg (snap : Snapshot) (now start_time : ℚ) (total_frames : Nat) :
    ProgressMessage :=
  let elapsed_time := now - start_time
  let rate := processing_rate snap.frames_processed elapsed_time
  ⟨"OBJECT_DETECTION", snap.frames_processed, total_frames,
    etaString (eta_value total_frames snap.frames_processed rate)⟩

/-- One iteration of the `log_progress` polling loop body, from the snapshot
of the queue sizes: returns the log entries it emits and whether it sets the
stop event (`frames_processed >= total_frames`).  The `update_ui` call is
wrapped in `try/except` in the source: a sink error is caught and logged, so
the iteration always returns normally. -/
def log_progress_iteration (state : AppState) (snap : Snapshot)
    (now start_time : ℚ) (total_frames : Nat) : List Action × Bool :=
  let stop := total_frames ≤ snap.frames_processed
  match state.update_ui with
  | none => ([], stop)
  | some ui =>
    match ui (monitorMsg snap now start_time total_frames) with
    | .ok _ => ([], stop)
    | .error e => ([Action.logError ("Error in state.update_ui: " ++ e)], stop)

/- ## Performance aggregator (from `log_performance`, lines 165-173) -/

/-- `tasks = [task for task in results_queue.queue if hasattr(task, "profile")]`. -/
def log_performance_tasks (results_queue : List Item) : List Item :=
  results_queue.filter Item.hasattrProfile

/-- `total_frames = len(tasks)`: the Performance Aggregator's total-units count. -/
def log_performance_total_frames (results_queue : List Item) : Nat :=
  (log_performance_tasks results_queue).length

/-- Modelled from the spec: "Total units = count of completed units with a
non-empty profile".  This is the specification-side counting rule, stated for
comparison with `log_performance_total_frames` (the code-side count). -/
def spec_total_units (results_queue : List Item) : Nat :=
  (results_queue.filter fun i =>
    match i with
    | .task _ p => !p.isEmpty
    | .sentinel => false).length

/- ## Stage-worker model -/

/-- Apply a stage's per-unit profile update to an item (the sentinel is never
transformed). -/
def applyT (f : List (String × ℚ) → List (String × ℚ)) : Item → Item
  | .task i p => .task i (f p)
  | .sentinel => .sentinel

/-- The units available on a queue before its first end-of-stream sentinel. -/
def takeUnits (input : List Item) : List Item :=
  input.takeWhile fun i => !i.isSentinel

/-- Modelled from the spec: the observable behaviour of one stage worker
(the worker classes are not part of the given source).  `transform` is the
stage's per-unit profile update; `failAfter = some (k, e)` means the stage's
transform raises error `e` on the unit after the first `k`, which the worker
catches and stores. -/
structure WorkerSpec where
  transform : List (String × ℚ) → List (String × ℚ)
  failAfter : Option (Nat × Err)

/-- Modelled from the spec: a stage worker consumes units from its input until
the first sentinel, applies its transform to each, pushes each downstream, and
on exhaustion pushes exactly one sentinel downstream and terminates.  On a
transform error it stores the error on the worker, stops forwarding further
units, and still pushes the terminating sentinel so the downstream stage and
the run terminate (spec section 8).  Returns the full sequence of items the
worker pushes downstream, and its stored error. -/
def runWorker (w : WorkerSpec) (input : List Item) : List Item × Option Err :=
  let units := takeUnits input
  match w.failAfter with
  | some ke =>
    if ke.1 < units.length then
      (((units.take ke.1).map (applyT w.transform)) ++ [Item.sentinel], some ke.2)
    else
      (units.map (applyT w.transform) ++ [Item.sentinel], none)
  | none => (units.map (applyT w.transform) ++ [Item.sentinel], none)

/-- The stream of fresh frame tasks produced by the first (decode) stage's
internal generator: one task per frame, created with an empty profile. -/
def sourceItems (n : Nat) : List Item :=
  (List.range n).map fun i => Item.task i []

/-- Modelled from the spec: the first stage worker generates its units
internally from the video source instead of reading a queue. -/
def runSource (w : WorkerSpec) (n : Nat) : List Item × Option Err :=
  runWorker w (sourceItems n ++ [Item.sentinel])

/- ## Run environment -/

/-- External collaborators and configuration of one run: the process-wide
`SEQUENTIAL_MODE` constant (its module is not part of the given source), the
outcomes of the fallible setup collaborators, the outcome of each
`thread.start()` call, and the behaviour of each stage worker. -/
structure Env where
  sequentialMode : Bool
  folderError : Option Err
  probe : Except Err VideoInfo
  constructError : Option Err
  startError : String → Option Err
  decodeW : WorkerSpec
  openglW : WorkerSpec
  yoloW : WorkerSpec
  analysisW : WorkerSpec

/- ## Orchestrator embedding (from `analyze_video`, lines 21-115) -/

/-- The outcome of one `analyze_video` run: the returned list (or raised
error), the final mutated application state, the chronological action trace,
and the full sequence of items pushed into each of the four queues. -/
structure RunResult where
  result : Except Err (List Item)
  finalState : AppState
  trace : List Action
  openglPushed : List Item
  yoloPushed : List Item
  analysisPushed : List Item
  resultPushed : List Item

/-- The reader-resolution block (lines 33-41): when the OpenGL reader is
requested, disable it (overwriting `state.video_reader` in place) with a
warning when the video is not VR, and again when it is fisheye. -/
def resolve_video_reader (state : AppState) : AppState × List Action :=
  if state.video_reader == openglReader then
    let sa :=
      if !state.video_info.is_vr then
        ({ state with video_reader := "FFmpeg" },
         [Action.logWarn "Disabled OpenGL in the pipeline as it is not needed for 2D videos"])
      else (state, [])
    if sa.1.video_info.is_fisheye then
      ({ sa.1 with video_reader := "FFmpeg" },
       sa.2 ++ [Action.logWarn "Disabled OpenGL as fisheye is not yet supported with the opengl feature"])
    else sa
  else (state, [])

/-- The state after `set_video_info` and reader resolution. -/
def effState (s : AppState) (vi : VideoInfo) : AppState :=
  (resolve_video_reader { s with video_info := vi }).1

/-- The warnings recorded by reader resolution. -/
def effWarns (s : AppState) (vi : VideoInfo) : List Action :=
  (resolve_video_reader { s with video_info := vi }).2

/-- `use_open_gl = state.video_reader == "FFmpeg + OpenGL (Windows)"` after
reader resolution. -/
def effG (s : AppState) (vi : VideoInfo) : Bool :=
  (effState s vi).video_reader == openglReader

/-- The worker-construction actions (lines 53-56): `VrTo2DWorker` is
instantiated only when `use_open_gl`. -/
def creations (g : Bool) : List Action :=
  Action.createWorker "VIDEO" ::
    ((if g then [Action.createWorker "OPENGL"] else []) ++
      [Action.createWorker "YOLO", Action.createWorker "YOLO_ANALYSIS"])

/-- The `threads` list of concurrent mode (line 81), in stage order. -/
def stageNamesC (g : Bool) : List String :=
  if g then ["VIDEO", "OPENGL", "YOLO", "YOLO_ANALYSIS"]
  else ["VIDEO", "YOLO", "YOLO_ANALYSIS"]

/-- The `for thread in threads: thread.start()` loop: returns the threads
started before the first failing `start()` call, and that call's error. -/
def startLoop (env : Env) : List String → List String × Option Err
  | [] => ([], none)
  | t :: ts =>
    match env.startError t with
    | some e => ([], some e)
    | none =>
      let r := startLoop env ts
      (t :: r.1, r.2)

/-- The `for thread in threads: thread.check_exception()` loop.  Modelled from
the spec: `check_exception()` raises the worker's stored error (step 5: "query
check_exception() on each, in stage order, and raise the first found error").
Returns the check actions performed and the first error found. -/
def checkLoop : List (String × Option Err) → List Action × Option Err
  | [] => ([], none)
  | p :: ps =>
    match p.2 with
    | some e => ([Action.checkException p.1], some e)
    | none =>
      let r := checkLoop ps
      (Action.checkException p.1 :: r.1, r.2)

/-- The first `thread.start()` error encountered along the sequential-mode
stage sequence (the conversion stage is reached only when `use_open_gl`). -/
def seqFirstStartErr (env : Env) (g : Bool) : Option Err :=
  match env.startError "VIDEO" with
  | some e => some e
  | none =>
    match (if g then env.startError "OPENGL" else none) with
    | some e => some e
    | none =>
      match env.startError "YOLO" with
      | some e => some e
      | none => env.startError "YOLO_ANALYSIS"

/-- The first `some` error in a list of per-stage stored errors. -/
def firstStoredError : List (Option Err) → Option Err
  | [] => none
  | some e :: _ => some e
  | none :: rest => firstStoredError rest

/-- The exception handler's join loop (lines 112-114):
`if thread is not None and thread.is_alive(): thread.join(timeout=1)`.
A thread is alive exactly when it was started and not yet joined. -/
def handlerJoins (threads started joined : List String) : List Action :=
  threads.filterMap fun t =>
    if started.contains t && !(joined.contains t) then
      some (Action.joinThreadTimeout t 1)
    else none

/-- The `except` block of `analyze_video` (lines 108-115): log the error,
set the monitor stop event, join every still-alive started thread with a
one-second timeout, and re-raise the original error. -/
def failPath (e : Err) (state : AppState) (threads started joined : List String)
    (traceSoFar : List Action) (ogP yP aP rP : List Item) : RunResult :=
  { result := .error e
    finalState := state
    trace := traceSoFar ++
      [Action.logError ("An error occurred during video analysis: " ++ e),
       Action.setStopEvent] ++ handlerJoins threads started joined
    openglPushed := ogP
    yoloPushed := yP
    analysisPushed := aP
    resultPushed := rP }

/-- Everything the decode stage pushes (and its stored error). -/
def chainD (env : Env) (n : Nat) : List Item × Option Err :=
  runSource env.decodeW n

/-- Everything the conversion stage pushes (and its stored error). -/
def chainO (env : Env) (n : Nat) : List Item × Option Err :=
  runWorker env.openglW (chainD env n).1

/-- The contents arriving on the detection stage's input queue. -/
def chainYIn (env : Env) (g : Bool) (n : Nat) : List Item :=
  if g then (chainO env n).1 else (chainD env n).1

/-- Everything the detection stage pushes (and its stored error). -/
def chainY (env : Env) (g : Bool) (n : Nat) : List Item × Option Err :=
  runWorker env.yoloW (chainYIn env g n)

/-- Everything the analysis stage pushes (and its stored error). -/
def chainA (env : Env) (g : Bool) (n : Nat) : List Item × Option Err :=
  runWorker env.analysisW (chainY env g n).1

/-- The stored errors of the active stages, in the stage order of the
concurrent-mode `threads` list. -/
def storedErrs (env : Env) (g : Bool) (n : Nat) : List (Option Err) :=
  if g then
    [(chainD env n).2, (chainO env n).2, (chainY env g n).2, (chainA env g n).2]
  else
    [(chainD env n).2, (chainY env g n).2, (chainA env g n).2]

/-- The final progress message (lines 99-104): delivered with `eta = "Done"`. -/
def finalMsg (vi : VideoInfo) : ProgressMessage :=
  ⟨"OBJECT_DETECTION", vi.total_frames, vi.total_frames, "Done"⟩

/-- The tail of a successful pipeline run (lines 92-106): record the end time,
set the stop event (already in `trace`), log performance, deliver the final
progress update — which is NOT wrapped in its own `try/except`, so a sink
error there falls through to the function's general handler (all threads are
already joined, so the handler performs no joins) and is re-raised — and
return `result_q.queue`. -/
def finishRun (s : AppState) (trace : List Action) (vi : VideoInfo)
    (ogP yP aP rP : List Item) : RunResult :=
  match s.update_ui with
  | none => ⟨.ok rP, s, trace, ogP, yP, aP, rP⟩
  | some ui =>
    match ui (finalMsg vi) with
    | .ok _ => ⟨.ok rP, s, trace, ogP, yP, aP, rP⟩
    | .error e =>
      ⟨.error e, s,
        trace ++ [Action.logError ("An error occurred during video analysis: " ++ e),
                  Action.setStopEvent],
        ogP, yP, aP, rP⟩

/-- Sequential mode, detection and analysis stages (`run_thread` calls for the
YOLO and YOLO_ANALYSIS workers, lines 78-79): each stage is started, joined,
and then one manual `None` sentinel is put into its `out_queue`. -/
def seqTail (s : AppState) (env : Env) (g : Bool) (t : List Action)
    (vi : VideoInfo) (ogP yP : List Item) : RunResult :=
  let n := vi.total_frames
  match env.startError "YOLO" with
  | some e => failPath e s [] [] [] t ogP yP [] []
  | none =>
    let aP := (chainY env g n).1 ++ [Item.sentinel]
    let t2 := t ++ [Action.startThread "YOLO", Action.joinThread "YOLO",
                    Action.putSentinel "analysis_q"]
    match env.startError "YOLO_ANALYSIS" with
    | some e => failPath e s [] [] [] t2 ogP yP aP []
    | none =>
      let rP := (chainA env g n).1 ++ [Item.sentinel]
      let t3 := t2 ++ [Action.startThread "YOLO_ANALYSIS",
                       Action.joinThread "YOLO_ANALYSIS", Action.putSentinel "result_q"]
      finishRun s (t3 ++ [Action.setStopEvent]) vi ogP yP aP rP

/-- Sequential mode (lines 67-79).  Note `run_thread(decode_thread, ..., opengl_q)`
always puts its manual sentinel into `opengl_q`, even when the decode worker's
actual output queue is `yolo_q`; and `threads` stays `[]` in this mode, so the
exception handler joins nothing. -/
def seqRun (s : AppState) (env : Env) (g : Bool) (trace0 : List Action)
    (vi : VideoInfo) : RunResult :=
  let n := vi.total_frames
  match env.startError "VIDEO" with
  | some e => failPath e s [] [] [] trace0 [] [] [] []
  | none =>
    let dOut := (chainD env n).1
    let ogP := (if g then dOut else []) ++ [Item.sentinel]
    let t1 := trace0 ++ [Action.startThread "VIDEO", Action.joinThread "VIDEO",
                         Action.putSentinel "opengl_q"]
    if g then
      match env.startError "OPENGL" with
      | some e => failPath e s [] [] [] t1 ogP [] [] []
      | none =>
        let yP := (chainO env n).1 ++ [Item.sentinel]
        let t2 := t1 ++ [Action.startThread "OPENGL", Action.joinThread "OPENGL",
                         Action.putSentinel "yolo_q"]
        seqTail s env g t2 vi ogP yP
    else
      seqTail s env g t1 vi ogP dOut

/-- Concurrent mode (lines 81-90): start all active stage workers, join all,
then query `check_exception()` on each in stage order; the first stored error
found is raised and reaches the general handler (all threads already joined,
so the handler joins nothing). -/
def concRun (s : AppState) (env : Env) (g : Bool) (trace0 : List Action)
    (vi : VideoInfo) : RunResult :=
  let n := vi.total_frames
  let ogP := if g then (chainD env n).1 else []
  let yP := chainYIn env g n
  let aP := (chainY env g n).1
  let rP := (chainA env g n).1
  let threads := stageNamesC g
  let sl := startLoop env threads
  match sl.2 with
  | some e =>
    failPath e s threads sl.1 [] (trace0 ++ sl.1.map Action.startThread) [] [] [] []
  | none =>
    let cl := checkLoop (threads.zip (storedErrs env g n))
    let t1 := trace0 ++ threads.map Action.startThread ++
              threads.map Action.joinThread ++ cl.1
    match cl.2 with
    | some e => failPath e s threads threads threads t1 ogP yP aP rP
    | none => finishRun s (t1 ++ [Action.setStopEvent]) vi ogP yP aP rP

/-- `analyze_video(state)` (lines 21-115): prepare the output folder, probe
the video, resolve the effective reader, construct queues and workers, start
the progress monitor, run the stages (sequentially or concurrently), and
finish; any error falls to the `except` block (`failPath`). -/
def analyze_video (state : AppState) (env : Env) : RunResult :=
  match env.folderError with
  | some e => failPath e state [] [] [] [] [] [] [] []
  | none =>
    match env.probe with
    | .error e => failPath e state [] [] [] [] [] [] [] []
    | .ok vi =>
      let s2 := effState state vi
      let g := effG state vi
      match env.constructError with
      | some e => failPath e s2 [] [] [] (effWarns state vi) [] [] [] []
      | none =>
        let trace0 := effWarns state vi ++ creations g ++ [Action.startThread "monitor"]
        if env.sequentialMode then seqRun s2 env g trace0 vi
        else concRun s2 env g trace0 vi

/- ## Derived observations -/

/-- Number of end-of-stream sentinels in a sequence of pushed items. -/
def sentinelCount (l : List Item) : Nat :=
  (l.filter Item.isSentinel).length

/-- The sequence is some real units followed only by sentinels — equivalently,
no unit occurs after a sentinel. -/
def unitsThenSentinels (l : List Item) : Prop :=
  ∃ us k, (∀ x ∈ us, x.isSentinel = false) ∧ l = us ++ List.replicate k Item.sentinel

/-- Actions that record the reader warning or instantiate a worker. -/
def isWarnOrCreate : Action → Bool
  | .logWarn _ => true
  | .createWorker _ => true
  | _ => false

/- ## Concrete run configurations used to evaluate the model -/

/-- A stage worker whose transform is the identity and which never fails. -/
def idW : WorkerSpec := ⟨fun p => p, none⟩

/-- A two-frame flat (non-VR, non-fisheye) video. -/
def vi2D : VideoInfo := ⟨2, 30, false, false⟩

/-- A VR fisheye video. -/
def viFish : VideoInfo := ⟨2, 30, true, true⟩

/-- A state requesting the plain FFmpeg reader, with no UI sink. -/
def stPlain : AppState := ⟨"video.mp4", "FFmpeg", ⟨0, 30, false, false⟩, none⟩

/-- A state requesting the OpenGL projection-conversion reader, no UI sink. -/
def stOpenGl : AppState := ⟨"video.mp4", openglReader, ⟨0, 30, false, false⟩, none⟩

/-- A UI sink that raises exactly on the final completion update. -/
def boomSink : ProgressMessage → Except Err Unit :=
  fun m => if m.eta == "Done" then .error "ui sink failure" else .ok ()

/-- A state whose UI sink raises exactly on the final completion update. -/
def stFinalBoom : AppState :=
  ⟨"video.mp4", "FFmpeg", ⟨0, 30, false, false⟩, some boomSink⟩

/-- A UI sink that raises on every update. -/
def allBoom : ProgressMessage → Except Err Unit :=
  fun _ => Except.error "sink raise"

/-- A state whose UI sink raises on every update. -/
def stMonBoom : AppState :=
  ⟨"video.mp4", "FFmpeg", ⟨0, 30, false, false⟩, some allBoom⟩

/-- A fault-free sequential-mode environment on the two-frame flat video. -/
def envSeq : Env := ⟨true, none, .ok vi2D, none, fun _ => none, idW, idW, idW, idW⟩

/-- A fault-free concurrent-mode environment on the two-frame flat video. -/
def envConc : Env := ⟨false, none, .ok vi2D, none, fun _ => none, idW, idW, idW, idW⟩

/-- A concurrent-mode environment whose output-folder preparation raises. -/
def envFolderBoom : Env :=
  ⟨false, some "folder failure", .ok vi2D, none, fun _ => none, idW, idW, idW, idW⟩

/-- A concurrent-mode environment where starting the YOLO thread raises. -/
def envStartBoom : Env :=
  ⟨false, none, .ok vi2D, none,
   fun t => if t == "YOLO" then some "start failure" else none, idW, idW, idW, idW⟩

/-- A concurrent-mode environment where the decode and analysis workers store
errors (the decode worker fails after one unit). -/
def envStored : Env :=
  ⟨false, none, .ok vi2D, none, fun _ => none,
   ⟨fun p => p, some (1, "decode failure")⟩, idW, idW,
   ⟨fun p => p, some (0, "analysis failure")⟩⟩

/-- A fault-free concurrent-mode environment on the VR fisheye video. -/
def envFish : Env := ⟨false, none, .ok viFish, none, fun _ => none, idW, idW, idW, idW⟩

/-- A sequential-mode environment where the decode and analysis workers store
errors. -/
def envStoredSeq : Env :=
  ⟨true, none, .ok vi2D, none, fun _ => none,
   ⟨fun p => p, some (1, "decode failure")⟩, idW, idW,
   ⟨fun p => p, some (0, "analysis failure")⟩⟩

/-- A well-formed results collection: one unit with a non-empty profile and
the trailing sentinel. -/
def exRs : List Item := [Item.task 0 [("yolo_duration", 1)], Item.sentinel]

/- ## Basic lemmas about the worker model -/

theorem takeUnits_no_sentinel (input : List Item) :
    ∀ x ∈ takeUnits input, x.isSentinel = false := by
  intro x hx
  have := List.mem_takeWhile_imp hx
  simpa using this

theorem applyT_no_sentinel (f : List (String × ℚ) → List (String × ℚ)) (x : Item)
    (h : x.isSentinel = false) : (applyT f x).isSentinel = false := by
  cases x with
  | task i p => rfl
  | sentinel => simp [Item.isSentinel] at h

theorem runWorker_shape (w : WorkerSpec) (input : List Item) :
    ∃ us, (runWorker w input).1 = us ++ [Item.sentinel] ∧
      ∀ x ∈ us, x.isSentinel = false := by
  unfold runWorker
  cases hf : w.failAfter with
  | none =>
    refine ⟨(takeUnits input).map (applyT w.transform), by simp, ?_⟩
    intro x hx
    rcases List.mem_map.mp hx with ⟨y, hy, rfl⟩
    exact applyT_no_sentinel _ _ (takeUnits_no_sentinel input y hy)
  | some ke =>
    by_cases hk : ke.1 < (takeUnits input).length
    · refine ⟨((takeUnits input).take ke.1).map (applyT w.transform), by simp [hk], ?_⟩
      intro x hx
      rcases List.mem_map.mp hx with ⟨y, hy, rfl⟩
      exact applyT_no_sentinel _ _
        (takeUnits_no_sentinel input y (List.mem_of_mem_take hy))
    · refine ⟨(takeUnits input).map (applyT w.transform), by simp [hk], ?_⟩
      intro x hx
      rcases List.mem_map.mp hx with ⟨y, hy, rfl⟩
      exact applyT_no_sentinel _ _ (takeUnits_no_sentinel input y hy)

theorem sentinelCount_units_nil (us : List Item)
    (h : ∀ x ∈ us, x.isSentinel = false) : sentinelCount us = 0 := by
  unfold sentinelCount
  rw [List.filter_eq_nil_iff.mpr (by intro x hx; simp [h x hx])]
  rfl

theorem sentinelCount_append (l₁ l₂ : List Item) :
    sentinelCount (l₁ ++ l₂) = sentinelCount l₁ + sentinelCount l₂ := by
  unfold sentinelCount
  rw [List.filter_append, List.length_append]

theorem sentinelCount_single : sentinelCount [Item.sentinel] = 1 := rfl

theorem runWorker_sentinelCount (w : WorkerSpec) (input : List Item) :
    sentinelCount (runWorker w input).1 = 1 := by
  rcases runWorker_shape w input with ⟨us, heq, hus⟩
  rw [heq, sentinelCount_append, sentinelCount_units_nil us hus, sentinelCount_single]

theorem unitsThenSentinels_worker (w : WorkerSpec) (input : List Item) :
    unitsThenSentinels (runWorker w input).1 := by
  rcases runWorker_shape w input with ⟨us, heq, hus⟩
  exact ⟨us, 1, hus, by simpa using heq⟩

theorem unitsThenSentinels_append_sentinel (l : List Item)
    (h : unitsThenSentinels l) : unitsThenSentinels (l ++ [Item.sentinel]) := by
  rcases h with ⟨us, k, hus, rfl⟩
  refine ⟨us, k + 1, hus, ?_⟩
  rw [List.append_assoc, List.replicate_succ']

theorem unitsThenSentinels_sentinel_only : unitsThenSentinels [Item.sentinel] :=
  ⟨[], 1, by simp, rfl⟩

theorem unitsThenSentinels_nil : unitsThenSentinels [] :=
  ⟨[], 0, by simp, rfl⟩

/- ## Basic lemmas about the orchestrator loops -/

theorem startLoop_all_none (env : Env) (ts : List String)
    (h : ∀ t, env.startError t = none) : startLoop env ts = (ts, none) := by
  induction ts with
  | nil => rfl
  | cons t ts ih => simp [startLoop, h t, ih]

theorem startLoop_mem (env : Env) (ts : List String) (t : String)
    (h : t ∈ (startLoop env ts).1) : t ∈ ts := by
  induction ts with
  | nil => simp [startLoop] at h
  | cons u us ih =>
    rw [startLoop] at h
    cases hu : env.startError u with
    | some e => rw [hu] at h; simp at h
    | none =>
      rw [hu] at h
      simp only [List.mem_cons] at h ⊢
      rcases h with h | h
      · exact Or.inl h
      · exact Or.inr (ih h)

theorem handlerJoins_all_joined (ts : List String) :
    handlerJoins ts ts ts = [] := by
  unfold handlerJoins
  rw [List.filterMap_eq_nil_iff]
  intro t ht
  simp

theorem checkLoop_zip_err (ts : List String) (es : List (Option Err))
    (h : ts.length = es.length) :
    (checkLoop (ts.zip es)).2 = firstStoredError es := by
  induction ts generalizing es with
  | nil =>
    cases es with
    | nil => rfl
    | cons e es => simp at h
  | cons t ts ih =>
    cases es with
    | nil => simp at h
    | cons e es =>
      simp only [List.length_cons, Nat.succ.injEq] at h
      cases e with
      | some err =>
        show (checkLoop ((t, some err) :: ts.zip es)).2 = firstStoredError (some err :: es)
        rw [checkLoop]
        simp [firstStoredError]
      | none =>
        show (checkLoop ((t, none) :: ts.zip es)).2 = firstStoredError (none :: es)
        rw [checkLoop]
        simpa [firstStoredError] using ih es h

theorem checkLoop_actions (ps : List (String × Option Err)) :
    ∀ a ∈ (checkLoop ps).1, ∃ nm, a = Action.checkException nm := by
  induction ps with
  | nil => intro a ha; simp [checkLoop] at ha
  | cons p ps ih =>
    intro a ha
    cases hp : p.2 with
    | some e =>
      rw [checkLoop, hp] at ha
      simp at ha
      exact ⟨p.1, ha⟩
    | none =>
      rw [checkLoop, hp] at ha
      simp only [List.mem_cons] at ha
      rcases ha with rfl | ha
      · exact ⟨p.1, rfl⟩
      · exact ih a ha

/- ## Projection lemmas for the orchestrator branches -/

theorem failPath_result (e : Err) (st : AppState) (th sd jn : List String)
    (tr : List Action) (a b c d : List Item) :
    (failPath e st th sd jn tr a b c d).result = .error e := rfl

theorem failPath_finalState (e : Err) (st : AppState) (th sd jn : List String)
    (tr : List Action) (a b c d : List Item) :
    (failPath e st th sd jn tr a b c d).finalState = st := rfl

theorem finishRun_finalState (s : AppState) (tr : List Action) (vi : VideoInfo)
    (a b c d : List Item) : (finishRun s tr vi a b c d).finalState = s := by
  unfold finishRun
  cases s.update_ui with
  | none => rfl
  | some ui => cases hui : ui (finalMsg vi) <;> simp [hui]

theorem finishRun_pushed (s : AppState) (tr : List Action) (vi : VideoInfo)
    (a b c d : List Item) :
    (finishRun s tr vi a b c d).openglPushed = a
    ∧ (finishRun s tr vi a b c d).yoloPushed = b
    ∧ (finishRun s tr vi a b c d).analysisPushed = c
    ∧ (finishRun s tr vi a b c d).resultPushed = d := by
  unfold finishRun
  cases s.update_ui with
  | none => exact ⟨rfl, rfl, rfl, rfl⟩
  | some ui => cases hui : ui (finalMsg vi) <;> simp [hui]

theorem finishRun_ok (s : AppState) (tr : List Action) (vi : VideoInfo)
    (a b c d : List Item) (r : List Item)
    (h : (finishRun s tr vi a b c d).result = .ok r) : r = d := by
  unfold finishRun at h
  cases hsu : s.update_ui with
  | none => rw [hsu] at h; simpa using h.symm
  | some ui =>
    rw [hsu] at h
    dsimp only at h
    cases hui : ui (finalMsg vi) with
    | ok u => rw [hui] at h; simpa using h.symm
    | error e => rw [hui] at h; simp at h

theorem seqTail_finalState (s : AppState) (env : Env) (g : Bool) (t : List Action)
    (vi : VideoInfo) (ogP yP : List Item) :
    (seqTail s env g t vi ogP yP).finalState = s := by
  unfold seqTail
  cases env.startError "YOLO" with
  | some e => rfl
  | none =>
    cases env.startError "YOLO_ANALYSIS" with
    | some e => rfl
    | none => exact finishRun_finalState ..

theorem seqRun_finalState (s : AppState) (env : Env) (g : Bool) (t : List Action)
    (vi : VideoInfo) : (seqRun s env g t vi).finalState = s := by
  unfold seqRun
  cases env.startError "VIDEO" with
  | some e => rfl
  | none =>
    cases g with
    | false => exact seqTail_finalState ..
    | true =>
      cases env.startError "OPENGL" with
      | some e => rfl
      | none => exact seqTail_finalState ..

theorem concRun_finalState (s : AppState) (env : Env) (g : Bool) (t : List Action)
    (vi : VideoInfo) : (concRun s env g t vi).finalState = s := by
  unfold concRun
  dsimp only
  cases h1 : (startLoop env (stageNamesC g)).2 with
  | some e => rfl
  | none =>
    dsimp only
    cases h2 : (checkLoop ((stageNamesC g).zip
      (storedErrs env g vi.total_frames))).2 with
    | some e => rfl
    | none => exact finishRun_finalState ..

/- ## Reader-resolution lemmas -/

theorem effState_reader_disabled (s : AppState) (vi : VideoInfo)
    (hr : s.video_reader = openglReader)
    (hv : vi.is_vr = false ∨ vi.is_fisheye = true) :
    (effState s vi).video_reader = "FFmpeg" := by
  unfold effState resolve_video_reader
  rcases hv with h | h
  · cases hfe : vi.is_fisheye <;> simp [hr, h, hfe]
  · cases hvr : vi.is_vr <;> simp [hr, h, hvr]

theorem effState_update_ui (s : AppState) (vi : VideoInfo) :
    (effState s vi).update_ui = s.update_ui := by
  unfold effState resolve_video_reader
  cases hbe : ({ s with video_info := vi } : AppState).video_reader == openglReader
  · simp [hbe]
  · cases hvr : vi.is_vr <;> cases hfe : vi.is_fisheye <;> simp [hbe, hvr, hfe]

theorem effG_disabled (s : AppState) (vi : VideoInfo)
    (hr : s.video_reader = openglReader)
    (hv : vi.is_vr = false ∨ vi.is_fisheye = true) :
    effG s vi = false := by
  unfold effG
  rw [effState_reader_disabled s vi hr hv]
  decide

theorem effWarns_only_warns (s : AppState) (vi : VideoInfo) :
    ∀ a ∈ effWarns s vi, ∃ m, a = Action.logWarn m := by
  intro a ha
  unfold effWarns resolve_video_reader at ha
  cases hbe : ({ s with video_info := vi } : AppState).video_reader == openglReader
  · rw [hbe] at ha; simp at ha
  · rw [hbe] at ha
    cases hvr : vi.is_vr <;> cases hfe : vi.is_fisheye <;>
      simp [hvr, hfe] at ha
    · exact ⟨_, ha⟩
    · rcases ha with rfl | rfl
      · exact ⟨_, rfl⟩
      · exact ⟨_, rfl⟩
    · exact ⟨_, ha⟩

theorem effWarns_nonempty (s : AppState) (vi : VideoInfo)
    (hr : s.video_reader = openglReader)
    (hv : vi.is_vr = false ∨ vi.is_fisheye = true) :
    effWarns s vi ≠ [] := by
  unfold effWarns resolve_video_reader
  rcases hv with h | h
  · cases hfe : vi.is_fisheye <;> simp [hr, h, hfe]
  · cases hvr : vi.is_vr <;> simp [hr, h, hvr]

theorem analyze_finalState (s : AppState) (env : Env) (vi : VideoInfo)
    (hf : env.folderError = none) (hp : env.probe = .ok vi) :
    (analyze_video s env).finalState = effState s vi := by
  unfold analyze_video
  rw [hf, hp]
  dsimp only
  cases env.constructError with
  | some e => rfl
  | none =>
    dsimp only
    cases hm : env.sequentialMode with
    | true =>
      rw [if_pos rfl]
      exact seqRun_finalState ..
    | false =>
      rw [if_neg (by decide)]
      exact concRun_finalState ..

/- ## Claim C7: monitor rate and ETA arithmetic -/

/-- C7: on every monitor polling iteration the processing rate equals
completed divided by elapsed when elapsed is positive and zero otherwise; the
ETA equals (total minus completed) divided by the rate when the rate is
positive and is the unbounded value, reported as "Calculating...", when the
rate is zero; the rate is never negative, and each division performed is
guarded by the positivity of its divisor, so no division by zero occurs. -/
theorem C7_monitor_rate_eta (frames_processed total_frames : Nat)
    (elapsed_time rate : ℚ) (snap : Snapshot) (now t0 : ℚ) :
    (0 < elapsed_time →
      processing_rate frames_processed elapsed_time =
        (frames_processed : ℚ) / elapsed_time)
    ∧ (elapsed_time ≤ 0 → processing_rate frames_processed elapsed_time = 0)
    ∧ 0 ≤ processing_rate frames_processed elapsed_time
    ∧ (0 < rate →
        eta_value total_frames frames_processed rate =
          EtaV.finite (((total_frames : ℚ) - (frames_processed : ℚ)) / rate))
    ∧ (rate = 0 →
        eta_value total_frames frames_processed rate = EtaV.inf
        ∧ etaString (eta_value total_frames frames_processed rate) = "Calculating...")
    ∧ (monitorMsg snap now t0 total_frames).eta =
        etaString (eta_value total_frames snap.frames_processed
          (processing_rate snap.frames_processed (now - t0))) := by
  refine ⟨?_, ?_, ?_, ?_, ?_, rfl⟩
  · intro h
    unfold processing_rate
    rw [if_pos h]
  · intro h
    unfold processing_rate
    rw [if_neg (not_lt.mpr h)]
  · unfold processing_rate
    by_cases h : 0 < elapsed_time
    · rw [if_pos h]
      exact div_nonneg (Nat.cast_nonneg _) (le_of_lt h)
    · rw [if_neg h]
  · intro h
    unfold eta_value
    rw [if_pos h]
  · intro h
    subst h
    unfold eta_value
    rw [if_neg (lt_irrefl 0)]
    exact ⟨rfl, rfl⟩

/-- Witness for C7 at concrete inputs. -/
theorem C7_monitor_rate_eta_witness :
    processing_rate 10 2 = (10 : ℚ) / 2
    ∧ processing_rate 10 (-3) = 0
    ∧ eta_value 100 10 5 = EtaV.finite (((100 : ℚ) - 10) / 5)
    ∧ eta_value 100 10 0 = EtaV.inf
    ∧ etaString (eta_value 100 10 0) = "Calculating..." :=
  ⟨(C7_monitor_rate_eta 10 100 2 5 ⟨0, 0, 0, 0⟩ 0 0).1 (by norm_num),
   (C7_monitor_rate_eta 10 100 (-3) 5 ⟨0, 0, 0, 0⟩ 0 0).2.1 (by norm_num),
   (C7_monitor_rate_eta 10 100 2 5 ⟨0, 0, 0, 0⟩ 0 0).2.2.2.1 (by norm_num),
   ((C7_monitor_rate_eta 10 100 2 0 ⟨0, 0, 0, 0⟩ 0 0).2.2.2.2.1 rfl).1,
   ((C7_monitor_rate_eta 10 100 2 0 ⟨0, 0, 0, 0⟩ 0 0).2.2.2.2.1 rfl).2⟩

/- ## Claim C8: the aggregator's total-units count -/

theorem total_frames_eq_isTask_count (rs : List Item) :
    log_performance_total_frames rs = (rs.filter Item.isTask).length := by
  unfold log_performance_total_frames log_performance_tasks
  have hfun : Item.hasattrProfile = Item.isTask := by
    funext x
    cases x <;> rfl
  rw [hfun]

theorem total_frames_sentinel_not_counted (rs : List Item) :
    log_performance_total_frames (rs ++ [Item.sentinel]) =
      log_performance_total_frames rs := by
  unfold log_performance_total_frames log_performance_tasks
  rw [List.filter_append]
  simp [Item.hasattrProfile]

theorem total_frames_eq_spec_of_nonempty (rs : List Item) :
    (∀ i p, Item.task i p ∈ rs → p ≠ []) →
    log_performance_total_frames rs = spec_total_units rs := by
  unfold log_performance_total_frames log_performance_tasks spec_total_units
  induction rs with
  | nil => intro _; rfl
  | cons x xs ih =>
    intro h
    have hx : ∀ i p, Item.task i p ∈ xs → p ≠ [] :=
      fun i p hm => h i p (List.mem_cons_of_mem _ hm)
    cases x with
    | sentinel => simpa [Item.hasattrProfile] using ih hx
    | task i p =>
      have hp : p ≠ [] := h i p (List.mem_cons_self _ _)
      have hpe : p.isEmpty = false := by
        cases p with
        | nil => exact absurd rfl hp
        | cons a as => rfl
      simp only [List.filter_cons, Item.hasattrProfile, hpe, Bool.not_false,
        if_true, List.length_cons]
      rw [ih hx]

/-- C8 counterexample: on a results collection holding one completed unit with
an empty profile, the aggregator's count is 1 while the claim's counting rule
(units with a non-empty profile) gives 0, so the two disagree: the count is by
possession of a profile attribute, not by non-emptiness of the profile. -/
theorem C8_empty_profile_counted :
    log_performance_total_frames [Item.task 0 []] = 1
    ∧ spec_total_units [Item.task 0 []] = 0
    ∧ log_performance_total_frames [Item.task 0 []] ≠
        spec_total_units [Item.task 0 []] :=
  ⟨rfl, rfl, by decide⟩

/-- C8 amended: the Performance Aggregator's total-units count equals the
number of items in the results collection that possess a profile attribute —
all completed units, including any with an empty profile; a sentinel is never
counted; and on collections whose units all carry non-empty profiles the count
coincides with the spec's "non-empty profile" counting rule. -/
theorem C8_total_units_count (rs : List Item) :
    log_performance_total_frames rs = (rs.filter Item.isTask).length
    ∧ log_performance_total_frames (rs ++ [Item.sentinel]) =
        log_performance_total_frames rs
    ∧ ((∀ i p, Item.task i p ∈ rs → p ≠ []) →
        log_performance_total_frames rs = spec_total_units rs) :=
  ⟨total_frames_eq_isTask_count rs, total_frames_sentinel_not_counted rs,
   total_frames_eq_spec_of_nonempty rs⟩

/-- Witness for C8 on a concrete well-formed results collection. -/
theorem C8_total_units_count_witness :
    log_performance_total_frames exRs = (exRs.filter Item.isTask).length
    ∧ log_performance_total_frames (exRs ++ [Item.sentinel]) =
        log_performance_total_frames exRs
    ∧ log_performance_total_frames exRs = spec_total_units exRs := by
  have h := C8_total_units_count exRs
  refine ⟨h.1, h.2.1, h.2.2 ?_⟩
  intro i p hm
  simp [exRs] at hm
  obtain ⟨rfl, rfl⟩ := hm
  simp

/- ## Claim C10: the requested reader preference is lost -/

/-- C10: when the projection-conversion reader is requested and the video is
2D or fisheye, `analyze_video` overwrites the shared state's `video_reader`
field in place with the plain reader and never restores it: whatever the mode
and however the run proceeds after probing, the state object's `video_reader`
after the call is "FFmpeg", no longer the caller's requested preference. -/
theorem C10_reader_preference_lost (s : AppState) (env : Env) (vi : VideoInfo)
    (hr : s.video_reader = openglReader)
    (hv : vi.is_vr = false ∨ vi.is_fisheye = true)
    (hf : env.folderError = none) (hp : env.probe = Except.ok vi) :
    (analyze_video s env).finalState.video_reader = "FFmpeg"
    ∧ (analyze_video s env).finalState.video_reader ≠ s.video_reader := by
  have h1 := analyze_finalState s env vi hf hp
  rw [h1, effState_reader_disabled s vi hr hv]
  refine ⟨rfl, ?_⟩
  rw [hr]
  simp [openglReader]

/-- Witness for C10 on the VR fisheye video with OpenGL requested. -/
theorem C10_reader_preference_lost_witness :
    (analyze_video stOpenGl envFish).finalState.video_reader = "FFmpeg"
    ∧ (analyze_video stOpenGl envFish).finalState.video_reader ≠
        stOpenGl.video_reader :=
  C10_reader_preference_lost stOpenGl envFish viFish rfl (Or.inr rfl) rfl rfl

/- ## Run-shape lemmas: fault-free starts -/

theorem finishRun_eq_ok (s : AppState) (tr : List Action) (vi : VideoInfo)
    (a b c d : List Item)
    (hui : ∀ ui, s.update_ui = some ui → ui (finalMsg vi) = Except.ok ()) :
    finishRun s tr vi a b c d =
      { result := Except.ok d, finalState := s, trace := tr,
        openglPushed := a, yoloPushed := b, analysisPushed := c,
        resultPushed := d } := by
  unfold finishRun
  cases hsu : s.update_ui with
  | none => rfl
  | some ui =>
    dsimp only
    rw [hui ui hsu]

theorem seqRun_run (s : AppState) (env : Env) (g : Bool) (t : List Action)
    (vi : VideoInfo) (hs : ∀ nm, env.startError nm = none) :
    seqRun s env g t vi =
      finishRun s
        (t ++ [Action.startThread "VIDEO", Action.joinThread "VIDEO",
               Action.putSentinel "opengl_q"]
          ++ (if g then [Action.startThread "OPENGL", Action.joinThread "OPENGL",
                         Action.putSentinel "yolo_q"] else [])
          ++ [Action.startThread "YOLO", Action.joinThread "YOLO",
              Action.putSentinel "analysis_q",
              Action.startThread "YOLO_ANALYSIS", Action.joinThread "YOLO_ANALYSIS",
              Action.putSentinel "result_q", Action.setStopEvent]) vi
        ((if g then (chainD env vi.total_frames).1 else []) ++ [Item.sentinel])
        (if g then (chainO env vi.total_frames).1 ++ [Item.sentinel]
         else (chainD env vi.total_frames).1)
        ((chainY env g vi.total_frames).1 ++ [Item.sentinel])
        ((chainA env g vi.total_frames).1 ++ [Item.sentinel]) := by
  unfold seqRun seqTail
  simp only [hs]
  cases g <;> simp [List.append_assoc]

theorem storedErrs_length (env : Env) (g : Bool) (n : Nat) :
    (stageNamesC g).length = (storedErrs env g n).length := by
  cases g <;> rfl

theorem concRun_err (s : AppState) (env : Env) (g : Bool) (t : List Action)
    (vi : VideoInfo) (e : Err) (hs : ∀ nm, env.startError nm = none)
    (hcl : (checkLoop ((stageNamesC g).zip
      (storedErrs env g vi.total_frames))).2 = some e) :
    concRun s env g t vi =
      failPath e s (stageNamesC g) (stageNamesC g) (stageNamesC g)
        (t ++ (stageNamesC g).map Action.startThread
           ++ (stageNamesC g).map Action.joinThread
           ++ (checkLoop ((stageNamesC g).zip
                (storedErrs env g vi.total_frames))).1)
        (if g then (chainD env vi.total_frames).1 else [])
        (chainYIn env g vi.total_frames)
        ((chainY env g vi.total_frames).1)
        ((chainA env g vi.total_frames).1) := by
  unfold concRun
  dsimp only
  rw [startLoop_all_none env _ hs]
  dsimp only
  rw [hcl]

theorem concRun_clean (s : AppState) (env : Env) (g : Bool) (t : List Action)
    (vi : VideoInfo) (hs : ∀ nm, env.startError nm = none)
    (hcl : (checkLoop ((stageNamesC g).zip
      (storedErrs env g vi.total_frames))).2 = none) :
    concRun s env g t vi =
      finishRun s
        (t ++ (stageNamesC g).map Action.startThread
           ++ (stageNamesC g).map Action.joinThread
           ++ (checkLoop ((stageNamesC g).zip
                (storedErrs env g vi.total_frames))).1
           ++ [Action.setStopEvent]) vi
        (if g then (chainD env vi.total_frames).1 else [])
        (chainYIn env g vi.total_frames)
        ((chainY env g vi.total_frames).1)
        ((chainA env g vi.total_frames).1) := by
  unfold concRun
  dsimp only
  rw [startLoop_all_none env _ hs]
  dsimp only
  rw [hcl]

theorem analyze_seq (s : AppState) (env : Env) (vi : VideoInfo)
    (hm : env.sequentialMode = true)
    (hf : env.folderError = none) (hp : env.probe = Except.ok vi)
    (hc : env.constructError = none) :
    analyze_video s env =
      seqRun (effState s vi) env (effG s vi)
        (effWarns s vi ++ creations (effG s vi) ++ [Action.startThread "monitor"]) vi := by
  unfold analyze_video
  rw [hf, hp]
  dsimp only
  rw [hc]
  dsimp only
  rw [hm, if_pos rfl]

theorem analyze_conc (s : AppState) (env : Env) (vi : VideoInfo)
    (hm : env.sequentialMode = false)
    (hf : env.folderError = none) (hp : env.probe = Except.ok vi)
    (hc : env.constructError = none) :
    analyze_video s env =
      concRun (effState s vi) env (effG s vi)
        (effWarns s vi ++ creations (effG s vi) ++ [Action.startThread "monitor"]) vi := by
  unfold analyze_video
  rw [hf, hp]
  dsimp only
  rw [hc]
  dsimp only
  rw [hm]
  rw [if_neg (by decide)]

theorem failPath_trace (e : Err) (st : AppState) (th sd jn : List String)
    (tr : List Action) (a b c d : List Item) :
    (failPath e st th sd jn tr a b c d).trace =
      tr ++ [Action.logError ("An error occurred during video analysis: " ++ e),
             Action.setStopEvent] ++ handlerJoins th sd jn := rfl

/- ## Claim C9: sequential mode never queries stored worker errors -/

/-- C9: in sequential mode `check_exception()` is never queried on any stage
worker, so an error captured and stored inside a worker never causes
`analyze_video` to raise: whatever errors the workers store, the run completes
normally and returns the results-queue contents. -/
theorem C9_sequential_ignores_stored_errors (s : AppState) (env : Env)
    (vi : VideoInfo) (hm : env.sequentialMode = true)
    (hf : env.folderError = none) (hp : env.probe = Except.ok vi)
    (hc : env.constructError = none)
    (hs : ∀ nm, env.startError nm = none)
    (hui : ∀ ui, s.update_ui = some ui → ui (finalMsg vi) = Except.ok ()) :
    (analyze_video s env).result =
      Except.ok ((chainA env (effG s vi) vi.total_frames).1 ++ [Item.sentinel])
    ∧ ∀ nm, Action.checkException nm ∉ (analyze_video s env).trace := by
  have hui2 : ∀ ui, (effState s vi).update_ui = some ui →
      ui (finalMsg vi) = Except.ok () := by
    intro ui h
    exact hui ui ((effState_update_ui s vi) ▸ h)
  rw [analyze_seq s env vi hm hf hp hc, seqRun_run _ env _ _ vi hs,
      finishRun_eq_ok _ _ _ _ _ _ _ hui2]
  refine ⟨rfl, ?_⟩
  intro nm hmem
  dsimp only at hmem
  cases hg : effG s vi <;> rw [hg] at hmem <;>
    simp only [creations, if_true, if_false, Bool.false_eq_true,
      List.mem_append, List.mem_cons, List.mem_singleton,
      List.not_mem_nil, or_false, false_or, reduceCtorEq] at hmem <;>
  · rcases effWarns_only_warns s vi _ hmem with ⟨m, hm2⟩
    simp at hm2

/-- Witness for C9: a sequential run whose decode and analysis workers store
errors still returns normally (here only the two sentinels survive the failed
stages), and no exception check is performed. -/
theorem C9_sequential_ignores_stored_errors_witness :
    (analyze_video stPlain envStoredSeq).result =
      Except.ok [Item.sentinel, Item.sentinel]
    ∧ Action.checkException "YOLO_ANALYSIS" ∉
        (analyze_video stPlain envStoredSeq).trace := by
  have h := C9_sequential_ignores_stored_errors stPlain envStoredSeq vi2D rfl rfl
    rfl rfl (fun nm => rfl) (by intro ui hui; simp [stPlain] at hui)
  exact ⟨h.1.trans (by rfl), h.2 "YOLO_ANALYSIS"⟩

/- ## Claim C5: concurrent-mode error surfaced in stage order -/

/-- C5: in concurrent mode every active stage worker is started and joined,
and `check_exception()` is queried in stage order (decode first, analysis
last): the error raised to the caller is the stored error of the earliest
stage in pipeline order that failed, and the trace ends with the stage-order
exception checks followed by the handler's log and stop actions. -/
theorem C5_concurrent_first_stage_error (s : AppState) (env : Env)
    (vi : VideoInfo) (e : Err) (hm : env.sequentialMode = false)
    (hf : env.folderError = none) (hp : env.probe = Except.ok vi)
    (hc : env.constructError = none)
    (hs : ∀ nm, env.startError nm = none)
    (he : firstStoredError (storedErrs env (effG s vi) vi.total_frames) = some e) :
    (analyze_video s env).result = Except.error e
    ∧ (∀ nm ∈ stageNamesC (effG s vi),
        Action.startThread nm ∈ (analyze_video s env).trace
        ∧ Action.joinThread nm ∈ (analyze_video s env).trace)
    ∧ ∃ pre,
        (analyze_video s env).trace =
          pre ++ (checkLoop ((stageNamesC (effG s vi)).zip
                    (storedErrs env (effG s vi) vi.total_frames))).1
              ++ [Action.logError ("An error occurred during video analysis: " ++ e),
                  Action.setStopEvent] := by
  have hcl : (checkLoop ((stageNamesC (effG s vi)).zip
      (storedErrs env (effG s vi) vi.total_frames))).2 = some e := by
    rw [checkLoop_zip_err _ _ (storedErrs_length env _ vi.total_frames)]
    exact he
  rw [analyze_conc s env vi hm hf hp hc, concRun_err _ env _ _ vi e hs hcl]
  refine ⟨rfl, ?_, ?_⟩
  · intro nm hnm
    rw [failPath_trace]
    simp only [List.mem_append]
    constructor
    · exact Or.inl (Or.inl (Or.inl (Or.inl (Or.inr (List.mem_map_of_mem _ hnm)))))
    · exact Or.inl (Or.inl (Or.inl (Or.inr (List.mem_map_of_mem _ hnm))))
  · refine ⟨(effWarns s vi ++ creations (effG s vi) ++ [Action.startThread "monitor"])
      ++ (stageNamesC (effG s vi)).map Action.startThread
      ++ (stageNamesC (effG s vi)).map Action.joinThread, ?_⟩
    rw [failPath_trace, handlerJoins_all_joined]
    simp [List.append_assoc]

/-- Witness for C5: with stored errors in both the decode and the analysis
workers, the error surfaced by the concurrent run is the decode stage's. -/
theorem C5_concurrent_first_stage_error_witness :
    (analyze_video stPlain envStored).result = Except.error "decode failure"
    ∧ Action.startThread "VIDEO" ∈ (analyze_video stPlain envStored).trace
    ∧ Action.joinThread "YOLO_ANALYSIS" ∈ (analyze_video stPlain envStored).trace := by
  have h := C5_concurrent_first_stage_error stPlain envStored vi2D "decode failure"
    rfl rfl rfl rfl (fun nm => rfl) rfl
  exact ⟨h.1, (h.2.1 "VIDEO" (by decide)).1, (h.2.1 "YOLO_ANALYSIS" (by decide)).2⟩

/- ## Pushed-contents lemmas -/

theorem concRun_pushes (s : AppState) (env : Env) (g : Bool) (t : List Action)
    (vi : VideoInfo) (hs : ∀ nm, env.startError nm = none) :
    (concRun s env g t vi).openglPushed =
      (if g then (chainD env vi.total_frames).1 else [])
    ∧ (concRun s env g t vi).yoloPushed = chainYIn env g vi.total_frames
    ∧ (concRun s env g t vi).analysisPushed = (chainY env g vi.total_frames).1
    ∧ (concRun s env g t vi).resultPushed = (chainA env g vi.total_frames).1 := by
  cases hcl : (checkLoop ((stageNamesC g).zip
      (storedErrs env g vi.total_frames))).2 with
  | some e =>
    rw [concRun_err s env g t vi e hs hcl]
    exact ⟨rfl, rfl, rfl, rfl⟩
  | none =>
    rw [concRun_clean s env g t vi hs hcl]
    exact finishRun_pushed ..

theorem seqRun_pushes (s : AppState) (env : Env) (g : Bool) (t : List Action)
    (vi : VideoInfo) (hs : ∀ nm, env.startError nm = none) :
    (seqRun s env g t vi).openglPushed =
      (if g then (chainD env vi.total_frames).1 else []) ++ [Item.sentinel]
    ∧ (seqRun s env g t vi).yoloPushed =
      (if g then (chainO env vi.total_frames).1 ++ [Item.sentinel]
       else (chainD env vi.total_frames).1)
    ∧ (seqRun s env g t vi).analysisPushed =
      (chainY env g vi.total_frames).1 ++ [Item.sentinel]
    ∧ (seqRun s env g t vi).resultPushed =
      (chainA env g vi.total_frames).1 ++ [Item.sentinel] := by
  rw [seqRun_run s env g t vi hs]
  exact finishRun_pushed ..

/- ## Result characterization of runs that return normally -/

theorem seqTail_ok (s : AppState) (env : Env) (g : Bool) (t : List Action)
    (vi : VideoInfo) (ogP yP : List Item) (r : List Item)
    (h : (seqTail s env g t vi ogP yP).result = Except.ok r) :
    r = (chainA env g vi.total_frames).1 ++ [Item.sentinel] := by
  unfold seqTail at h
  dsimp only at h
  cases h1 : env.startError "YOLO" with
  | some e => rw [h1] at h; simp [failPath] at h
  | none =>
    rw [h1] at h
    dsimp only at h
    cases h2 : env.startError "YOLO_ANALYSIS" with
    | some e => rw [h2] at h; simp [failPath] at h
    | none =>
      rw [h2] at h
      dsimp only at h
      exact finishRun_ok _ _ _ _ _ _ _ _ h

theorem seqRun_ok (s : AppState) (env : Env) (g : Bool) (t : List Action)
    (vi : VideoInfo) (r : List Item)
    (h : (seqRun s env g t vi).result = Except.ok r) :
    r = (chainA env g vi.total_frames).1 ++ [Item.sentinel] := by
  unfold seqRun at h
  dsimp only at h
  cases h1 : env.startError "VIDEO" with
  | some e => rw [h1] at h; simp [failPath] at h
  | none =>
    rw [h1] at h
    dsimp only at h
    cases g with
    | false =>
      rw [if_neg (by decide)] at h
      exact seqTail_ok _ _ _ _ _ _ _ _ h
    | true =>
      rw [if_pos rfl] at h
      cases h2 : env.startError "OPENGL" with
      | some e => rw [h2] at h; simp [failPath] at h
      | none =>
        rw [h2] at h
        dsimp only at h
        exact seqTail_ok _ _ _ _ _ _ _ _ h

theorem concRun_ok (s : AppState) (env : Env) (g : Bool) (t : List Action)
    (vi : VideoInfo) (r : List Item)
    (h : (concRun s env g t vi).result = Except.ok r) :
    r = (chainA env g vi.total_frames).1 := by
  unfold concRun at h
  dsimp only at h
  cases h1 : (startLoop env (stageNamesC g)).2 with
  | some e => rw [h1] at h; simp [failPath] at h
  | none =>
    rw [h1] at h
    dsimp only at h
    cases h2 : (checkLoop ((stageNamesC g).zip
        (storedErrs env g vi.total_frames))).2 with
    | some e => rw [h2] at h; simp [failPath] at h
    | none =>
      rw [h2] at h
      dsimp only at h
      exact finishRun_ok _ _ _ _ _ _ _ _ h

theorem analyze_ok (s : AppState) (env : Env) (r : List Item)
    (h : (analyze_video s env).result = Except.ok r) :
    ∃ vi, env.probe = Except.ok vi ∧
      r = (chainA env (effG s vi) vi.total_frames).1 ++
        (if env.sequentialMode then [Item.sentinel] else []) := by
  unfold analyze_video at h
  cases h1 : env.folderError with
  | some e => rw [h1] at h; simp [failPath] at h
  | none =>
    rw [h1] at h
    dsimp only at h
    cases h2 : env.probe with
    | error e => rw [h2] at h; simp [failPath] at h
    | ok vi =>
      rw [h2] at h
      dsimp only at h
      refine ⟨vi, rfl, ?_⟩
      cases h3 : env.constructError with
      | some e => rw [h3] at h; simp [failPath] at h
      | none =>
        rw [h3] at h
        dsimp only at h
        cases hm : env.sequentialMode with
        | true =>
          rw [hm, if_pos rfl] at h
          rw [if_pos rfl]
          exact seqRun_ok _ _ _ _ _ _ h
        | false =>
          rw [hm, if_neg (by decide)] at h
          rw [if_neg (by decide)]
          simpa using concRun_ok _ _ _ _ _ _ h

/- ## Claim C1: contents of the returned collection -/

/-- C1 counterexample: in the fault-free sequential two-frame run,
`analyze_video` returns the results queue with the end-of-stream sentinels
included: the sentinel IS an element of the returned collection. -/
theorem C1_sentinel_is_returned :
    (analyze_video stPlain envSeq).result =
      Except.ok [Item.task 0 [], Item.task 1 [], Item.sentinel, Item.sentinel]
    ∧ Item.sentinel ∈ [Item.task 0 [], Item.task 1 [], Item.sentinel,
        Item.sentinel] :=
  ⟨rfl, by decide⟩

/-- C1 amended: for every run that completes without raising, `analyze_video`
returns the results-queue contents in completion order: the completed units in
order, followed by the trailing end-of-stream sentinel(s) — one in concurrent
mode, two in sequential mode (the analysis worker's own and the manually
appended one).  The sentinel is therefore an element of the returned
collection, not excluded from it. -/
theorem C1_returned_collection_form (s : AppState) (env : Env) (r : List Item)
    (h : (analyze_video s env).result = Except.ok r) :
    ∃ us, (∀ x ∈ us, x.isSentinel = false)
      ∧ r = us ++ List.replicate
          (if env.sequentialMode then 2 else 1) Item.sentinel := by
  rcases analyze_ok s env r h with ⟨vi, hp, hr⟩
  rcases runWorker_shape env.analysisW (chainY env (effG s vi) vi.total_frames).1
    with ⟨us, heq, hus⟩
  have heq2 : (chainA env (effG s vi) vi.total_frames).1 = us ++ [Item.sentinel] :=
    heq
  refine ⟨us, hus, ?_⟩
  rw [hr, heq2]
  cases hm : env.sequentialMode with
  | true =>
    rw [if_pos rfl, if_pos rfl]
    simp [List.replicate_succ]
  | false =>
    rw [if_neg (by decide), if_neg (by decide)]
    simp

/-- Witness for C1 on the fault-free concurrent two-frame run. -/
theorem C1_returned_collection_form_witness :
    ∃ us, (∀ x ∈ us, x.isSentinel = false)
      ∧ [Item.task 0 [], Item.task 1 [], Item.sentinel] =
          us ++ List.replicate
            (if envConc.sequentialMode then 2 else 1) Item.sentinel :=
  C1_returned_collection_form stPlain envConc
    [Item.task 0 [], Item.task 1 [], Item.sentinel] rfl

/- ## Chain-level corollaries of the worker-shape lemmas -/

theorem chainD_sentinelCount (env : Env) (n : Nat) :
    sentinelCount (chainD env n).1 = 1 :=
  runWorker_sentinelCount env.decodeW (sourceItems n ++ [Item.sentinel])

theorem chainO_sentinelCount (env : Env) (n : Nat) :
    sentinelCount (chainO env n).1 = 1 :=
  runWorker_sentinelCount env.openglW (chainD env n).1

theorem chainY_sentinelCount (env : Env) (g : Bool) (n : Nat) :
    sentinelCount (chainY env g n).1 = 1 :=
  runWorker_sentinelCount env.yoloW (chainYIn env g n)

theorem chainA_sentinelCount (env : Env) (g : Bool) (n : Nat) :
    sentinelCount (chainA env g n).1 = 1 :=
  runWorker_sentinelCount env.analysisW (chainY env g n).1

theorem chainD_uts (env : Env) (n : Nat) : unitsThenSentinels (chainD env n).1 :=
  unitsThenSentinels_worker env.decodeW (sourceItems n ++ [Item.sentinel])

theorem chainO_uts (env : Env) (n : Nat) : unitsThenSentinels (chainO env n).1 :=
  unitsThenSentinels_worker env.openglW (chainD env n).1

theorem chainY_uts (env : Env) (g : Bool) (n : Nat) :
    unitsThenSentinels (chainY env g n).1 :=
  unitsThenSentinels_worker env.yoloW (chainYIn env g n)

theorem chainA_uts (env : Env) (g : Bool) (n : Nat) :
    unitsThenSentinels (chainA env g n).1 :=
  unitsThenSentinels_worker env.analysisW (chainY env g n).1

/- ## Claim C2: sentinel discipline on the queues -/

/-- C2 counterexample: in the fault-free sequential two-frame run, the results
queue receives TWO end-of-stream sentinels — the analysis worker's own and the
one `run_thread` manually appends — not exactly one. -/
theorem C2_two_sentinels_in_sequential_mode :
    sentinelCount (analyze_video stPlain envSeq).resultPushed = 2
    ∧ (analyze_video stPlain envSeq).resultPushed =
        [Item.task 0 [], Item.task 1 [], Item.sentinel, Item.sentinel] :=
  ⟨rfl, rfl⟩

/-- C2 amended: no unit is ever pushed into a queue after a sentinel, in
either mode.  In concurrent mode each active queue receives exactly one
sentinel (the conversion queue receives none when conversion is off).  In
sequential mode, however, the manual `out_queue.put(None)` of `run_thread`
adds a second sentinel on top of the worker's own: the analysis and results
queues always receive two; the conversion and detection queues receive two
when conversion is active, and otherwise one (for the detection queue the
worker's, for the idle conversion queue the misdirected manual one). -/
theorem C2_sentinel_discipline (s : AppState) (env : Env) (vi : VideoInfo)
    (hf : env.folderError = none) (hp : env.probe = Except.ok vi)
    (hc : env.constructError = none) (hs : ∀ nm, env.startError nm = none) :
    (unitsThenSentinels (analyze_video s env).openglPushed
     ∧ unitsThenSentinels (analyze_video s env).yoloPushed
     ∧ unitsThenSentinels (analyze_video s env).analysisPushed
     ∧ unitsThenSentinels (analyze_video s env).resultPushed)
    ∧ (env.sequentialMode = false →
        sentinelCount (analyze_video s env).openglPushed =
          (if effG s vi then 1 else 0)
        ∧ sentinelCount (analyze_video s env).yoloPushed = 1
        ∧ sentinelCount (analyze_video s env).analysisPushed = 1
        ∧ sentinelCount (analyze_video s env).resultPushed = 1)
    ∧ (env.sequentialMode = true →
        sentinelCount (analyze_video s env).openglPushed =
          (if effG s vi then 2 else 1)
        ∧ sentinelCount (analyze_video s env).yoloPushed =
          (if effG s vi then 2 else 1)
        ∧ sentinelCount (analyze_video s env).analysisPushed = 2
        ∧ sentinelCount (analyze_video s env).resultPushed = 2) := by
  cases hm : env.sequentialMode with
  | false =>
    rw [analyze_conc s env vi hm hf hp hc]
    obtain ⟨h1, h2, h3, h4⟩ := concRun_pushes (effState s vi) env (effG s vi) _ vi hs
    rw [h1, h2, h3, h4]
    refine ⟨⟨?_, ?_, ?_, ?_⟩, fun _ => ⟨?_, ?_, ?_, ?_⟩,
      fun htrue => absurd htrue (by simp)⟩
    · cases effG s vi
      · rw [if_neg (by decide)]
        exact unitsThenSentinels_nil
      · rw [if_pos rfl]
        exact chainD_uts env vi.total_frames
    · unfold chainYIn
      cases effG s vi
      · rw [if_neg (by decide)]
        exact chainD_uts env vi.total_frames
      · rw [if_pos rfl]
        exact chainO_uts env vi.total_frames
    · exact chainY_uts ..
    · exact chainA_uts ..
    · cases effG s vi
      · rw [if_neg (by decide), if_neg (by decide)]
        rfl
      · rw [if_pos rfl, if_pos rfl]
        exact chainD_sentinelCount env vi.total_frames
    · unfold chainYIn
      cases effG s vi
      · rw [if_neg (by decide)]
        exact chainD_sentinelCount env vi.total_frames
      · rw [if_pos rfl]
        exact chainO_sentinelCount env vi.total_frames
    · exact chainY_sentinelCount ..
    · exact chainA_sentinelCount ..
  | true =>
    rw [analyze_seq s env vi hm hf hp hc]
    obtain ⟨h1, h2, h3, h4⟩ := seqRun_pushes (effState s vi) env (effG s vi) _ vi hs
    rw [h1, h2, h3, h4]
    refine ⟨⟨?_, ?_, ?_, ?_⟩, fun hfalse => absurd hfalse (by simp),
      fun _ => ⟨?_, ?_, ?_, ?_⟩⟩
    · cases effG s vi
      · rw [if_neg (by decide), List.nil_append]
        exact unitsThenSentinels_sentinel_only
      · rw [if_pos rfl]
        exact unitsThenSentinels_append_sentinel _ (chainD_uts env vi.total_frames)
    · cases effG s vi
      · rw [if_neg (by decide)]
        exact chainD_uts env vi.total_frames
      · rw [if_pos rfl]
        exact unitsThenSentinels_append_sentinel _ (chainO_uts env vi.total_frames)
    · exact unitsThenSentinels_append_sentinel _ (chainY_uts ..)
    · exact unitsThenSentinels_append_sentinel _ (chainA_uts ..)
    · cases effG s vi
      · rw [if_neg (by decide), if_neg (by decide), List.nil_append]
        rfl
      · rw [if_pos rfl, if_pos rfl, sentinelCount_append,
          chainD_sentinelCount, sentinelCount_single]
    · cases effG s vi
      · rw [if_neg (by decide), if_neg (by decide)]
        exact chainD_sentinelCount env vi.total_frames
      · rw [if_pos rfl, if_pos rfl, sentinelCount_append,
          chainO_sentinelCount, sentinelCount_single]
    · rw [sentinelCount_append, chainY_sentinelCount, sentinelCount_single]
    · rw [sentinelCount_append, chainA_sentinelCount, sentinelCount_single]

/-- Witness for C2 on the fault-free sequential two-frame run. -/
theorem C2_sentinel_discipline_witness :
    unitsThenSentinels (analyze_video stPlain envSeq).resultPushed
    ∧ sentinelCount (analyze_video stPlain envSeq).resultPushed = 2
    ∧ sentinelCount (analyze_video stPlain envSeq).yoloPushed =
        (if effG stPlain vi2D then 2 else 1) := by
  have h := C2_sentinel_discipline stPlain envSeq vi2D rfl rfl rfl (fun _ => rfl)
  exact ⟨h.1.2.2.2, (h.2.2 rfl).2.2.2, (h.2.2 rfl).2.1⟩

/- ## Claim C3: progress-sink errors -/

theorem finishRun_eq_error (s : AppState) (tr : List Action) (vi : VideoInfo)
    (a b c d : List Item) (ui : ProgressMessage → Except Err Unit) (e : Err)
    (hsu : s.update_ui = some ui) (hui : ui (finalMsg vi) = Except.error e) :
    finishRun s tr vi a b c d =
      { result := Except.error e, finalState := s,
        trace := tr ++ [Action.logError
            ("An error occurred during video analysis: " ++ e),
          Action.setStopEvent],
        openglPushed := a, yoloPushed := b, analysisPushed := c,
        resultPushed := d } := by
  unfold finishRun
  rw [hsu]
  dsimp only
  rw [hui]

/-- C3 counterexample: a sink that raises only on the final completion update
turns an otherwise-successful concurrent run into a raised error — the sink
error escapes `analyze_video` (the same run with no sink returns normally). -/
theorem C3_final_update_error_propagates :
    (analyze_video stFinalBoom envConc).result = Except.error "ui sink failure"
    ∧ (analyze_video stPlain envConc).result =
        Except.ok [Item.task 0 [], Item.task 1 [], Item.sentinel] :=
  ⟨rfl, rfl⟩

/-- C3 amended: an exception raised by the progress sink during a periodic
monitor update is caught inside the monitor loop, logged, and never
propagated — the iteration returns normally with just a log entry.  The final
completion update, however, is not individually protected: a sink error there
falls through to the orchestrator's general exception handler, is logged, and
is re-raised out of `analyze_video`, so a failing sink can turn a successful
run into a raised error. -/
theorem C3_periodic_swallowed_final_raised :
    (∀ (state : AppState) (ui : ProgressMessage → Except Err Unit)
        (snap : Snapshot) (now t0 : ℚ) (n : Nat) (e : Err),
        state.update_ui = some ui →
        ui (monitorMsg snap now t0 n) = Except.error e →
        log_progress_iteration state snap now t0 n =
          ([Action.logError ("Error in state.update_ui: " ++ e)],
           decide (n ≤ snap.frames_processed)))
    ∧ (∀ (s : AppState) (env : Env) (vi : VideoInfo)
          (ui : ProgressMessage → Except Err Unit) (e : Err),
        env.sequentialMode = true → env.folderError = none →
        env.probe = Except.ok vi → env.constructError = none →
        (∀ nm, env.startError nm = none) →
        s.update_ui = some ui → ui (finalMsg vi) = Except.error e →
        (analyze_video s env).result = Except.error e
        ∧ Action.logError ("An error occurred during video analysis: " ++ e) ∈
            (analyze_video s env).trace) := by
  constructor
  · intro state ui snap now t0 n e hsu hui
    unfold log_progress_iteration
    rw [hsu]
    dsimp only
    rw [hui]
  · intro s env vi ui e hm hf hp hc hs hsu hui
    have hsu2 : (effState s vi).update_ui = some ui :=
      (effState_update_ui s vi).trans hsu
    rw [analyze_seq s env vi hm hf hp hc, seqRun_run _ env _ _ vi hs,
        finishRun_eq_error _ _ vi _ _ _ _ ui e hsu2 hui]
    exact ⟨rfl, by simp⟩

/-- Witness for C3: the periodic sink error is logged and swallowed; the final
sink error is re-raised. -/
theorem C3_periodic_swallowed_final_raised_witness :
    log_progress_iteration stMonBoom ⟨0, 0, 0, 0⟩ 1 0 2 =
      ([Action.logError "Error in state.update_ui: sink raise"], false)
    ∧ (analyze_video stFinalBoom envSeq).result =
        Except.error "ui sink failure" := by
  have h := C3_periodic_swallowed_final_raised
  constructor
  · exact h.1 stMonBoom allBoom ⟨0, 0, 0, 0⟩ 1 0 2 "sink raise" rfl rfl
  · exact (h.2 stFinalBoom envSeq vi2D boomSink "ui sink failure" rfl rfl rfl rfl
      (fun _ => rfl) rfl rfl).1

/- ## Claim C6: conversion disabled for 2D or fisheye videos -/

theorem handlerJoins_elts (th sd jn : List String) :
    ∀ a ∈ handlerJoins th sd jn, ∃ nm, a = Action.joinThreadTimeout nm 1 := by
  intro a ha
  unfold handlerJoins at ha
  rcases List.mem_filterMap.mp ha with ⟨x, hx, hfx⟩
  by_cases hcond : (sd.contains x && !(jn.contains x)) = true
  · rw [if_pos hcond] at hfx
    exact ⟨x, by simpa using hfx.symm⟩
  · rw [if_neg hcond] at hfx
    simp at hfx

theorem filter_warncreate_effWarns (s : AppState) (vi : VideoInfo) :
    (effWarns s vi).filter isWarnOrCreate = effWarns s vi := by
  apply List.filter_eq_self.mpr
  intro a ha
  rcases effWarns_only_warns s vi a ha with ⟨m, rfl⟩
  rfl

theorem filter_warncreate_map_start (l : List String) :
    (l.map Action.startThread).filter isWarnOrCreate = [] := by
  induction l with
  | nil => rfl
  | cons x xs ih => simp [isWarnOrCreate, ih]

theorem filter_warncreate_map_join (l : List String) :
    (l.map Action.joinThread).filter isWarnOrCreate = [] := by
  induction l with
  | nil => rfl
  | cons x xs ih => simp [isWarnOrCreate, ih]

theorem filter_warncreate_checks (ps : List (String × Option Err)) :
    ((checkLoop ps).1).filter isWarnOrCreate = [] := by
  apply List.filter_eq_nil_iff.mpr
  intro a ha
  rcases checkLoop_actions ps a ha with ⟨nm, rfl⟩
  simp [isWarnOrCreate]

theorem finishRun_trace_filter (s : AppState) (tr : List Action) (vi : VideoInfo)
    (a b c d : List Item) :
    (finishRun s tr vi a b c d).trace.filter isWarnOrCreate =
      tr.filter isWarnOrCreate := by
  unfold finishRun
  cases hsu : s.update_ui with
  | none => rfl
  | some ui =>
    dsimp only
    cases hui : ui (finalMsg vi) with
    | ok u => rfl
    | error e =>
      dsimp only
      rw [List.filter_append]
      simp [isWarnOrCreate]

theorem finishRun_trace_mem_of (s : AppState) (tr : List Action) (vi : VideoInfo)
    (a b c d : List Item) (x : Action) (hx : x ∈ tr) :
    x ∈ (finishRun s tr vi a b c d).trace := by
  unfold finishRun
  cases hsu : s.update_ui with
  | none => exact hx
  | some ui =>
    dsimp only
    cases hui : ui (finalMsg vi) with
    | ok u => exact hx
    | error e =>
      dsimp only
      exact List.mem_append_left _ hx

theorem finishRun_trace_not_mem (s : AppState) (tr : List Action) (vi : VideoInfo)
    (a b c d : List Item) (x : Action) (hx : x ∉ tr)
    (hlog : ∀ e, x ≠ Action.logError e) (hstop : x ≠ Action.setStopEvent) :
    x ∉ (finishRun s tr vi a b c d).trace := by
  unfold finishRun
  cases hsu : s.update_ui with
  | none => exact hx
  | some ui =>
    dsimp only
    cases hui : ui (finalMsg vi) with
    | ok u => exact hx
    | error e =>
      dsimp only
      intro hmem
      rcases List.mem_append.mp hmem with h | h
      · exact hx h
      · rcases List.mem_cons.mp h with h2 | h2
        · exact hlog _ h2
        · rcases List.mem_cons.mp h2 with h3 | h3
          · exact hstop h3
          · simp at h3

/-- C6: for a 2D or fisheye video with the projection-conversion reader
requested, the conversion path is disabled before any worker is created — a
warning is recorded, and in the resulting trace every warning precedes every
worker instantiation; exactly the three stages decode, detect and analyze are
instantiated and started, and the conversion stage is neither instantiated nor
started. -/
theorem C6_conversion_disabled (s : AppState) (env : Env) (vi : VideoInfo)
    (hr : s.video_reader = openglReader)
    (hv : vi.is_vr = false ∨ vi.is_fisheye = true)
    (hf : env.folderError = none) (hp : env.probe = Except.ok vi)
    (hc : env.constructError = none) (hs : ∀ nm, env.startError nm = none) :
    effG s vi = false
    ∧ effWarns s vi ≠ []
    ∧ (∀ a ∈ effWarns s vi, ∃ m, a = Action.logWarn m)
    ∧ (analyze_video s env).trace.filter isWarnOrCreate =
        effWarns s vi ++ [Action.createWorker "VIDEO", Action.createWorker "YOLO",
          Action.createWorker "YOLO_ANALYSIS"]
    ∧ Action.startThread "VIDEO" ∈ (analyze_video s env).trace
    ∧ Action.startThread "YOLO" ∈ (analyze_video s env).trace
    ∧ Action.startThread "YOLO_ANALYSIS" ∈ (analyze_video s env).trace
    ∧ Action.startThread "OPENGL" ∉ (analyze_video s env).trace
    ∧ Action.createWorker "OPENGL" ∉ (analyze_video s env).trace := by
  have hg := effG_disabled s vi hr hv
  cases hm : env.sequentialMode with
  | true =>
    rw [analyze_seq s env vi hm hf hp hc, hg, seqRun_run _ env _ _ vi hs]
    refine ⟨rfl, effWarns_nonempty s vi hr hv, effWarns_only_warns s vi,
      ?_, ?_, ?_, ?_, ?_, ?_⟩
    · rw [finishRun_trace_filter]
      simp [List.filter_append, filter_warncreate_effWarns, creations,
        isWarnOrCreate, List.append_assoc]
    · exact finishRun_trace_mem_of _ _ _ _ _ _ _ _ (by simp [creations])
    · exact finishRun_trace_mem_of _ _ _ _ _ _ _ _ (by simp [creations])
    · exact finishRun_trace_mem_of _ _ _ _ _ _ _ _ (by simp [creations])
    · refine finishRun_trace_not_mem _ _ _ _ _ _ _ _ ?_ (by intro e; simp) (by simp)
      intro hmem
      simp [creations] at hmem
      rcases effWarns_only_warns s vi _ hmem with ⟨m, hEq⟩
      simp at hEq
    · refine finishRun_trace_not_mem _ _ _ _ _ _ _ _ ?_ (by intro e; simp) (by simp)
      intro hmem
      simp [creations] at hmem
      rcases effWarns_only_warns s vi _ hmem with ⟨m, hEq⟩
      simp at hEq
  | false =>
    rw [analyze_conc s env vi hm hf hp hc, hg]
    cases hcl : (checkLoop ((stageNamesC false).zip
        (storedErrs env false vi.total_frames))).2 with
    | some e =>
      rw [concRun_err _ env _ _ vi e hs hcl, failPath_trace,
        handlerJoins_all_joined]
      refine ⟨rfl, effWarns_nonempty s vi hr hv, effWarns_only_warns s vi,
        ?_, ?_, ?_, ?_, ?_, ?_⟩
      · simp [List.filter_append, filter_warncreate_effWarns, creations,
          isWarnOrCreate, List.append_assoc, filter_warncreate_map_start,
          filter_warncreate_map_join, filter_warncreate_checks]
      · simp [creations, stageNamesC]
      · simp [creations, stageNamesC]
      · simp [creations, stageNamesC]
      · intro hmem
        simp [creations, stageNamesC] at hmem
        rcases hmem with h | h
        · rcases effWarns_only_warns s vi _ h with ⟨m, hEq⟩
          simp at hEq
        · rcases checkLoop_actions _ _ h with ⟨nm, hEq⟩
          simp at hEq
      · intro hmem
        simp [creations, stageNamesC] at hmem
        rcases hmem with h | h
        · rcases effWarns_only_warns s vi _ h with ⟨m, hEq⟩
          simp at hEq
        · rcases checkLoop_actions _ _ h with ⟨nm, hEq⟩
          simp at hEq
    | none =>
      rw [concRun_clean _ env _ _ vi hs hcl]
      refine ⟨rfl, effWarns_nonempty s vi hr hv, effWarns_only_warns s vi,
        ?_, ?_, ?_, ?_, ?_, ?_⟩
      · rw [finishRun_trace_filter]
        simp [List.filter_append, filter_warncreate_effWarns, creations,
          isWarnOrCreate, List.append_assoc, filter_warncreate_map_start,
          filter_warncreate_map_join, filter_warncreate_checks]
      · exact finishRun_trace_mem_of _ _ _ _ _ _ _ _
          (by simp [creations, stageNamesC])
      · exact finishRun_trace_mem_of _ _ _ _ _ _ _ _
          (by simp [creations, stageNamesC])
      · exact finishRun_trace_mem_of _ _ _ _ _ _ _ _
          (by simp [creations, stageNamesC])
      · refine finishRun_trace_not_mem _ _ _ _ _ _ _ _ ?_ (by intro e; simp) (by simp)
        intro hmem
        simp [creations, stageNamesC] at hmem
        rcases hmem with h | h
        · rcases effWarns_only_warns s vi _ h with ⟨m, hEq⟩
          simp at hEq
        · rcases checkLoop_actions _ _ h with ⟨nm, hEq⟩
          simp at hEq
      · refine finishRun_trace_not_mem _ _ _ _ _ _ _ _ ?_ (by intro e; simp) (by simp)
        intro hmem
        simp [creations, stageNamesC] at hmem
        rcases hmem with h | h
        · rcases effWarns_only_warns s vi _ h with ⟨m, hEq⟩
          simp at hEq
        · rcases checkLoop_actions _ _ h with ⟨nm, hEq⟩
          simp at hEq

/-- Witness for C6 on the VR fisheye video with the OpenGL reader requested,
concurrent fault-free run. -/
theorem C6_conversion_disabled_witness :
    effG stOpenGl viFish = false
    ∧ Action.startThread "VIDEO" ∈ (analyze_video stOpenGl envFish).trace
    ∧ Action.startThread "OPENGL" ∉ (analyze_video stOpenGl envFish).trace
    ∧ Action.createWorker "OPENGL" ∉ (analyze_video stOpenGl envFish).trace := by
  have h := C6_conversion_disabled stOpenGl envFish viFish rfl (Or.inr rfl)
    rfl rfl rfl (fun nm => rfl)
  exact ⟨h.1, h.2.2.2.2.1, h.2.2.2.2.2.2.2.1, h.2.2.2.2.2.2.2.2⟩

/- ## Claim C4: cleanup on setup or startup failure -/

theorem no_joinTimeout_in_effWarns (s : AppState) (vi : VideoInfo) (nm : String)
    (t : ℚ) : Action.joinThreadTimeout nm t ∈ effWarns s vi ↔ False := by
  constructor
  · intro h
    rcases effWarns_only_warns s vi _ h with ⟨m, hEq⟩
    simp at hEq
  · exact False.elim

theorem no_joinTimeout_in_creations (g : Bool) (nm : String) (t : ℚ) :
    Action.joinThreadTimeout nm t ∈ creations g ↔ False := by
  cases g <;> simp [creations]

theorem no_joinTimeout_in_checks (ps : List (String × Option Err)) (nm : String)
    (t : ℚ) : Action.joinThreadTimeout nm t ∈ (checkLoop ps).1 ↔ False := by
  constructor
  · intro h
    rcases checkLoop_actions ps _ h with ⟨m, hEq⟩
    simp at hEq
  · exact False.elim

theorem handlerJoins_mem_of (th st : List String) (nm : String)
    (h1 : nm ∈ th) (h2 : nm ∈ st) :
    Action.joinThreadTimeout nm 1 ∈ handlerJoins th st [] := by
  unfold handlerJoins
  apply List.mem_filterMap.mpr
  refine ⟨nm, h1, ?_⟩
  rw [if_pos (by simp [h2])]

theorem seqRun_start_err (s : AppState) (env : Env) (g : Bool) (t : List Action)
    (vi : VideoInfo) (e : Err) (hsl : seqFirstStartErr env g = some e) :
    (seqRun s env g t vi).result = Except.error e
    ∧ ∃ mid, (seqRun s env g t vi).trace =
        t ++ mid ++ [Action.logError ("An error occurred during video analysis: " ++ e),
          Action.setStopEvent]
      ∧ ∀ a ∈ mid, (∃ nm, a = Action.startThread nm)
          ∨ (∃ nm, a = Action.joinThread nm) ∨ ∃ q, a = Action.putSentinel q := by
  unfold seqFirstStartErr at hsl
  unfold seqRun seqTail
  dsimp only
  cases hv1 : env.startError "VIDEO" with
  | some e1 =>
    rw [hv1] at hsl
    dsimp only at hsl
    injection hsl with hsl
    subst hsl
    refine ⟨rfl, [], ?_, by simp⟩
    rw [failPath_trace]
    simp [handlerJoins]
  | none =>
    rw [hv1] at hsl
    dsimp only at hsl
    cases g with
    | true =>
      rw [if_pos rfl] at hsl ⊢
      cases hv2 : env.startError "OPENGL" with
      | some e2 =>
        rw [hv2] at hsl
        dsimp only at hsl
        injection hsl with hsl
        subst hsl
        refine ⟨rfl, [Action.startThread "VIDEO", Action.joinThread "VIDEO",
          Action.putSentinel "opengl_q"], ?_, by simp⟩
        rw [failPath_trace]
        simp [handlerJoins, List.append_assoc]
      | none =>
        rw [hv2] at hsl
        dsimp only at hsl
        cases hv3 : env.startError "YOLO" with
        | some e3 =>
          rw [hv3] at hsl
          dsimp only at hsl
          injection hsl with hsl
          subst hsl
          refine ⟨rfl, [Action.startThread "VIDEO", Action.joinThread "VIDEO",
            Action.putSentinel "opengl_q", Action.startThread "OPENGL",
            Action.joinThread "OPENGL", Action.putSentinel "yolo_q"], ?_, by simp⟩
          rw [failPath_trace]
          simp [handlerJoins, List.append_assoc]
        | none =>
          rw [hv3] at hsl
          dsimp only at hsl
          cases hv4 : env.startError "YOLO_ANALYSIS" with
          | some e4 =>
            rw [hv4] at hsl
            injection hsl with hsl
            subst hsl
            refine ⟨rfl, [Action.startThread "VIDEO", Action.joinThread "VIDEO",
              Action.putSentinel "opengl_q", Action.startThread "OPENGL",
              Action.joinThread "OPENGL", Action.putSentinel "yolo_q",
              Action.startThread "YOLO", Action.joinThread "YOLO",
              Action.putSentinel "analysis_q"], ?_, by simp⟩
            rw [failPath_trace]
            simp [handlerJoins, List.append_assoc]
          | none =>
            rw [hv4] at hsl
            exact absurd hsl (by simp)
    | false =>
      rw [if_neg (by decide)] at hsl
      rw [if_neg (by decide)]
      dsimp only at hsl
      cases hv3 : env.startError "YOLO" with
      | some e3 =>
        rw [hv3] at hsl
        dsimp only at hsl
        injection hsl with hsl
        subst hsl
        refine ⟨rfl, [Action.startThread "VIDEO", Action.joinThread "VIDEO",
          Action.putSentinel "opengl_q"], ?_, by simp⟩
        rw [failPath_trace]
        simp [handlerJoins, List.append_assoc]
      | none =>
        rw [hv3] at hsl
        dsimp only at hsl
        cases hv4 : env.startError "YOLO_ANALYSIS" with
        | some e4 =>
          rw [hv4] at hsl
          injection hsl with hsl
          subst hsl
          refine ⟨rfl, [Action.startThread "VIDEO", Action.joinThread "VIDEO",
            Action.putSentinel "opengl_q", Action.startThread "YOLO",
            Action.joinThread "YOLO", Action.putSentinel "analysis_q"], ?_, by simp⟩
          rw [failPath_trace]
          simp [handlerJoins, List.append_assoc]
        | none =>
          rw [hv4] at hsl
          exact absurd hsl (by simp)

/-- C4: when setup (output-folder preparation, video probing, queue or worker
construction) or worker startup raises, `analyze_video` signals the monitor
stop event, joins each still-alive already-started worker with the fixed
one-second timeout — every timed join in the run uses timeout 1, never an
indefinite wait, and in the concurrent-startup case every started worker is so
joined — and re-raises the original error; the result is that error, so no
partial results are returned. -/
theorem C4_failure_cleanup (s : AppState) (env : Env) (e : Err)
    (h : env.folderError = some e
      ∨ (env.folderError = none ∧ env.probe = Except.error e)
      ∨ (∃ vi, env.folderError = none ∧ env.probe = Except.ok vi
          ∧ env.constructError = some e)
      ∨ (∃ vi, env.folderError = none ∧ env.probe = Except.ok vi
          ∧ env.constructError = none ∧ env.sequentialMode = false
          ∧ (startLoop env (stageNamesC (effG s vi))).2 = some e)
      ∨ (∃ vi, env.folderError = none ∧ env.probe = Except.ok vi
          ∧ env.constructError = none ∧ env.sequentialMode = true
          ∧ seqFirstStartErr env (effG s vi) = some e)) :
    (analyze_video s env).result = Except.error e
    ∧ Action.setStopEvent ∈ (analyze_video s env).trace
    ∧ (∀ nm t, Action.joinThreadTimeout nm t ∈ (analyze_video s env).trace → t = 1)
    ∧ (∀ vi, env.folderError = none → env.probe = Except.ok vi →
        env.constructError = none → env.sequentialMode = false →
        ∀ nm ∈ (startLoop env (stageNamesC (effG s vi))).1,
          Action.joinThreadTimeout nm 1 ∈ (analyze_video s env).trace) := by
  rcases h with h1 | ⟨hf, hp⟩ | ⟨vi, hf, hp, hcstr⟩ | ⟨vi, hf, hp, hcstr, hm, hsl⟩ |
    ⟨vi, hf, hp, hcstr, hm, hsl⟩
  · unfold analyze_video
    rw [h1]
    dsimp only
    refine ⟨rfl, ?_, ?_, ?_⟩
    · rw [failPath_trace]
      simp
    · intro nm t hmem
      rw [failPath_trace] at hmem
      simp [handlerJoins] at hmem
    · intro vi hf' _ _ _
      exact Option.noConfusion hf'
  · unfold analyze_video
    rw [hf]
    dsimp only
    rw [hp]
    dsimp only
    refine ⟨rfl, ?_, ?_, ?_⟩
    · rw [failPath_trace]
      simp
    · intro nm t hmem
      rw [failPath_trace] at hmem
      simp [handlerJoins] at hmem
    · intro vi _ hp' _ _
      exact Except.noConfusion hp'
  · unfold analyze_video
    rw [hf]
    dsimp only
    rw [hp]
    dsimp only
    rw [hcstr]
    dsimp only
    refine ⟨rfl, ?_, ?_, ?_⟩
    · rw [failPath_trace]
      simp
    · intro nm t hmem
      rw [failPath_trace] at hmem
      simp [handlerJoins, no_joinTimeout_in_effWarns] at hmem
    · intro vi' _ _ hc' _
      exact Option.noConfusion hc'
  · rw [analyze_conc s env vi hm hf hp hcstr]
    unfold concRun
    dsimp only
    rw [hsl]
    dsimp only
    refine ⟨rfl, ?_, ?_, ?_⟩
    · rw [failPath_trace]
      simp
    · intro nm t hmem
      rw [failPath_trace] at hmem
      simp [no_joinTimeout_in_effWarns, no_joinTimeout_in_creations] at hmem
      rcases handlerJoins_elts _ _ _ _ hmem with ⟨nm2, hEq⟩
      injection hEq with hEq1 hEq2
    · intro vi' _ hp' _ _ nm hnm
      rw [hp] at hp'
      injection hp' with hviEq
      subst hviEq
      rw [failPath_trace]
      refine List.mem_append_right _ ?_
      exact handlerJoins_mem_of _ _ nm
        (startLoop_mem env _ nm hnm) hnm
  · rw [analyze_seq s env vi hm hf hp hcstr]
    obtain ⟨hres, mid, htr, hmid⟩ :=
      seqRun_start_err (effState s vi) env (effG s vi) _ vi e hsl
    refine ⟨hres, ?_, ?_, ?_⟩
    · rw [htr]
      simp
    · intro nm t hmem
      rw [htr] at hmem
      simp [no_joinTimeout_in_effWarns, no_joinTimeout_in_creations] at hmem
      rcases hmid _ hmem with ⟨nm2, hEq⟩ | ⟨nm2, hEq⟩ | ⟨q, hEq⟩ <;> simp at hEq
    · intro vi' _ _ _ hm' _ _
      rw [hm] at hm'
      exact absurd hm' (by decide)

/-- Witness for C4: a run whose output-folder preparation fails re-raises the
error, stops the monitor, and performs no unbounded join. -/
theorem C4_failure_cleanup_witness :
    (analyze_video stPlain envFolderBoom).result = Except.error "folder failure"
    ∧ Action.setStopEvent ∈ (analyze_video stPlain envFolderBoom).trace := by
  have h := C4_failure_cleanup stPlain envFolderBoom "folder failure" (Or.inl rfl)
  exact ⟨h.1, h.2.1⟩

end FunGen
